import Mathlib

/-
  Shallow embedding of the utm-manager repository.

  Modules modelled:
  - src/src/utils/cookie.ts  (namespace Cookie): the durable key/value store
    backed by the in-memory Map `memoryStorage`, plus the wire-format
    generator `generateCookieString`.  The `document.cookie` assignment
    writes the generated wire string into the host browser, which is outside
    the store model; the wire string itself is modelled by
    `generateCookieString`.
  - src/src/utm.ts           (namespace Utm): the attribution engine.
  - src/unnamed/part_003     (namespace IndexMod): the alternative engine
    module (the package index), whose saveUTMs takes a per-call ttl override.

  JavaScript conventions made explicit:
  - a thrown exception is an `Except.error`;
  - `console.error` side-channel reporting is an explicit `List String` log;
  - `x || y` on strings / numbers is modelled by dedicated js* helpers that
    spell out JS falsiness ("" and 0 are falsy);
  - a `Partial` options object distinguishes an absent property (outer
    `none`) from a property present with value `undefined` (inner `none`),
    matching object-spread merge semantics.
-/

namespace Cookie

inductive SameSite where
  | strict
  | lax
  | noneVal
deriving DecidableEq

/-- Render a SameSite value the way the TS string union writes it. -/
def SameSite.render : SameSite → String
  | .strict => "Strict"
  | .lax => "Lax"
  | .noneVal => "None"

/-- CookieOptions from cookie.ts: days is required, the rest optional. -/
structure CookieOptions where
  days : Int
  domain : Option String
  path : Option String
  secure : Option Bool
  sameSite : Option SameSite
deriving DecidableEq

/-- A Partial CookieOptions object literal: an outer none means the property
is absent from the literal, an inner none means it is present but undefined.
Object-spread merge overrides a default whenever the property is present. -/
structure PartialOptions where
  days : Option Int
  domain : Option (Option String)
  path : Option (Option String)
  secure : Option (Option Bool)
  sameSite : Option (Option SameSite)
deriving DecidableEq

/-- The empty object literal passed when setCookie gets no options. -/
def emptyPartial : PartialOptions :=
  { days := none, domain := none, path := none, secure := none, sameSite := none }

/-- DEFAULT_OPTIONS from cookie.ts. -/
def DEFAULT_OPTIONS : CookieOptions :=
  { days := 30
  , domain := none
  , path := some "/"
  , secure := some true
  , sameSite := some SameSite.lax }

/-- Object-spread merge of DEFAULT_OPTIONS with a partial options literal. -/
def mergeOptions (options : PartialOptions) : CookieOptions :=
  { days := options.days.getD DEFAULT_OPTIONS.days
  , domain := options.domain.getD DEFAULT_OPTIONS.domain
  , path := options.path.getD DEFAULT_OPTIONS.path
  , secure := options.secure.getD DEFAULT_OPTIONS.secure
  , sameSite := options.sameSite.getD DEFAULT_OPTIONS.sameSite }

/-- StoredCookie from cookie.ts: what memoryStorage holds per name.  Note the
source stores no write timestamp and no absolute expiry in the map entry. -/
structure StoredCookie where
  value : String
  options : CookieOptions
deriving DecidableEq

/-- The memoryStorage Map, as an insertion-ordered association list with
unique keys maintained by mapSet / mapDelete. -/
abbrev Store := List (String × StoredCookie)

/-- JS Map.set: update in place keeping the original position, else append. -/
def mapSet {α : Type} : List (String × α) → String → α → List (String × α)
  | [], k, v => [(k, v)]
  | (k1, v1) :: rest, k, v =>
    if k1 = k then (k, v) :: rest else (k1, v1) :: mapSet rest k v

/-- JS Map.get returning undefined as none. -/
def mapGet {α : Type} : List (String × α) → String → Option α
  | [], _ => none
  | (k1, v1) :: rest, k => if k1 = k then some v1 else mapGet rest k

/-- JS Map.delete (removes every binding of the key; a Map has one). -/
def mapDelete {α : Type} : List (String × α) → String → List (String × α)
  | [], _ => []
  | (k1, v1) :: rest, k =>
    if k1 = k then mapDelete rest k else (k1, v1) :: mapDelete rest k

/-- setCookie from cookie.ts: merge options with defaults and store the value
in memoryStorage.  The generated wire string (generateCookieString) is also
assigned to document.cookie in the source; that host-browser effect is
modelled separately by generateCookieString below. -/
def setCookie (s : Store) (name value : String) (options : PartialOptions) : Store :=
  let opts := mergeOptions options
  mapSet s name { value := value, options := opts }

/-- getCookie from cookie.ts: stored ? stored.value : null.  It reads only
memoryStorage and consults no clock and no expiry information. -/
def getCookie (s : Store) (name : String) : Option String :=
  match mapGet s name with
  | some stored => some stored.value
  | none => none

/-- removeCookie from cookie.ts: memoryStorage.delete(name). -/
def removeCookie (s : Store) (name : String) : Store :=
  mapDelete s name

/-- areCookiesEnabled from cookie.ts: write the sentinel, read it back,
remove it, report the round-trip result.  In the model none of the three
steps can throw, so the try/catch branch is dead. -/
def areCookiesEnabled (s : Store) : Bool × Store :=
  let s1 := setCookie s "__test__" "1" emptyPartial
  let result := getCookie s1 "__test__" == some "1"
  let s2 := removeCookie s1 "__test__"
  (result, s2)

/-- getAllCookies from cookie.ts: every stored entry mapped to its value. -/
def getAllCookies (s : Store) : List (String × String) :=
  s.map (fun e => (e.1, e.2.value))

end Cookie

namespace Cookie

/-- Characters left unescaped by JS encodeURIComponent besides letters and
digits: hyphen underscore dot bang tilde star quote parens (quote written via
its code point 39). -/
def markChars : List Char :=
  [Char.ofNat 45, Char.ofNat 95, Char.ofNat 46, Char.ofNat 33,
   Char.ofNat 126, Char.ofNat 42, Char.ofNat 39, Char.ofNat 40, Char.ofNat 41]

/-- A character encodeURIComponent leaves as itself. -/
def isUnreservedCh (c : Char) : Bool :=
  (Char.isAlpha c) || (Char.isDigit c) || markChars.contains c

/-- Hex digits used in percent escapes (upper case, as encodeURIComponent). -/
def hexChars : List Char :=
  ['0', '1', '2', '3', '4', '5', '6', '7', '8', '9', 'A', 'B', 'C', 'D', 'E', 'F']

/-- One upper-case hex digit of a nibble. -/
def hexDigit (n : Nat) : Char :=
  match n % 16 with
  | 0 => '0' | 1 => '1' | 2 => '2' | 3 => '3' | 4 => '4' | 5 => '5'
  | 6 => '6' | 7 => '7' | 8 => '8' | 9 => '9' | 10 => 'A' | 11 => 'B'
  | 12 => 'C' | 13 => 'D' | 14 => 'E' | _ => 'F'

/-- Percent escape of one byte. -/
def percentByte (b : Nat) : List Char :=
  ['%', hexDigit (b / 16), hexDigit (b % 16)]

/-- UTF-8 bytes of a code point, as encodeURIComponent escapes them. -/
def utf8Bytes (n : Nat) : List Nat :=
  if n < 128 then [n]
  else if n < 2048 then [192 + n / 64, 128 + n % 64]
  else if n < 65536 then [224 + n / 4096, 128 + (n / 64) % 64, 128 + n % 64]
  else [240 + n / 262144, 128 + (n / 4096) % 64, 128 + (n / 64) % 64, 128 + n % 64]

/-- encodeURIComponent on a single character. -/
def encodeChar (c : Char) : List Char :=
  if isUnreservedCh c then [c] else (utf8Bytes c.toNat).flatMap percentByte

/-- JS encodeURIComponent. -/
def encodeURIComponent (s : String) : String :=
  String.mk (s.data.flatMap encodeChar)

/-- Day-of-week and month names as Date.prototype.toUTCString prints them. -/
def dayName : Nat → String
  | 0 => "Sun" | 1 => "Mon" | 2 => "Tue" | 3 => "Wed"
  | 4 => "Thu" | 5 => "Fri" | _ => "Sat"

def monthName : Nat → String
  | 1 => "Jan" | 2 => "Feb" | 3 => "Mar" | 4 => "Apr"
  | 5 => "May" | 6 => "Jun" | 7 => "Jul" | 8 => "Aug"
  | 9 => "Sep" | 10 => "Oct" | 11 => "Nov" | _ => "Dec"

/-- Two-digit zero-padded decimal. -/
def pad2 (n : Nat) : String :=
  if n < 10 then "0" ++ toString n else toString n

/-- Four-digit zero-padded decimal for years. -/
def padNat4 (n : Nat) : String :=
  if n < 10 then "000" ++ toString n
  else if n < 100 then "00" ++ toString n
  else if n < 1000 then "0" ++ toString n
  else toString n

def padYear (y : Int) : String :=
  if y < 0 then "-" ++ padNat4 (-y).toNat else padNat4 y.toNat

/-- Proleptic-Gregorian civil date (year, month, day) from days since the
Unix epoch, the standard era-based conversion. -/
def civilFromDays (z0 : Int) : Int × Nat × Nat :=
  let z := z0 + 719468
  let era := Int.fdiv z 146097
  let doe := (z - era * 146097).toNat
  let yoe := (doe - doe / 1460 + doe / 36524 - doe / 146096) / 365
  let doy := doe - (365 * yoe + yoe / 4 - yoe / 100)
  let mp := (5 * doy + 2) / 153
  let day := doy - (153 * mp + 2) / 5 + 1
  let monthNum := if mp < 10 then mp + 3 else mp - 9
  let year := Int.ofNat yoe + era * 400 + (if monthNum ≤ 2 then 1 else 0)
  (year, monthNum, day)

/-- Date.prototype.toUTCString on a timestamp in milliseconds since epoch:
the HTTP-date shape Www, DD Mon YYYY HH:MM:SS GMT. -/
def toUTCString (t : Int) : String :=
  let days := Int.fdiv t 86400000
  let ms := (Int.fmod t 86400000).toNat
  let wd := (Int.fmod (days + 4) 7).toNat
  let c := civilFromDays days
  dayName wd ++ ", " ++ pad2 c.2.2 ++ " " ++ monthName c.2.1 ++ " "
    ++ padYear c.1 ++ " " ++ pad2 (ms / 3600000) ++ ":"
    ++ pad2 ((ms / 60000) % 60) ++ ":" ++ pad2 ((ms / 1000) % 60) ++ " GMT"

/-- JS template interpolation of a possibly-undefined string. -/
def renderOptStr : Option String → String
  | some p => p
  | none => "undefined"

/-- generateCookieString from cookie.ts, with the current time made an
explicit argument standing for Date.now().  The expires date is
now + days * 24*60*60*1000 milliseconds; the optional segments are appended
in source order, each guarded by JS truthiness of the option. -/
def generateCookieString (now : Int) (name value : String)
    (options : CookieOptions) : String :=
  let expires := now + options.days * (24 * 60 * 60 * 1000)
  let cookieString := encodeURIComponent name ++ "=" ++ encodeURIComponent value
      ++ "; expires=" ++ toUTCString expires ++ "; path=" ++ renderOptStr options.path
  let cookieString :=
    match options.domain with
    | some d => if d = "" then cookieString else cookieString ++ "; domain=" ++ d
    | none => cookieString
  let cookieString :=
    match options.sameSite with
    | some ss => cookieString ++ "; samesite=" ++ ss.render
    | none => cookieString
  let cookieString :=
    match options.secure with
    | some b => if b then cookieString ++ "; secure" else cookieString
    | none => cookieString
  cookieString

end Cookie


namespace Utm

/-- JS String.prototype.startsWith. -/
def jsStartsWith (s pat : String) : Bool :=
  pat.data.isPrefixOf s.data

/-- JS String.prototype.toLowerCase restricted to the character map Lean
provides (agrees with JS on ASCII, which is all the engine compares). -/
def jsToLowerCase (s : String) : String :=
  String.mk (s.data.map Char.toLower)

/-- JS String.prototype.includes. -/
def jsIncludes (s pat : String) : Bool :=
  (List.range (s.data.length + 1)).any (fun i => pat.data.isPrefixOf (s.data.drop i))

/-- JS currentValue || "" on a nullable string: null and "" are falsy. -/
def jsOrEmpty : Option String → String
  | none => ""
  | some s => if s = "" then "" else s

inductive AttributionStrategy where
  | first
  | last
  | dynamic
deriving DecidableEq

/-- UTMConfig from utm.ts.  The attribution callback may throw, which the
model writes as an Except.error carrying the thrown message. -/
structure UTMConfig where
  attribution : AttributionStrategy
  expirationDays : Int
  domain : Option String
  path : Option String
  secure : Option Bool
  sameSite : Option Cookie.SameSite
  attributionCallback : Option (String → String → Except String String)

/-- DEFAULT_CONFIG from utm.ts. -/
def DEFAULT_CONFIG : UTMConfig :=
  { attribution := .last
  , expirationDays := 30
  , domain := none
  , path := some "/"
  , secure := some true
  , sameSite := some Cookie.SameSite.lax
  , attributionCallback := none }

/-- VALID_UTM_PARAMS from utm.ts. -/
def VALID_UTM_PARAMS : List String :=
  ["utm_source", "utm_medium", "utm_campaign", "utm_term", "utm_content"]

/-- isValidUTMParam from utm.ts. -/
def isValidUTMParam (param : String) : Bool :=
  VALID_UTM_PARAMS.contains (jsToLowerCase param)

/-- shouldSaveUTM from utm.ts.  Returns the decision together with the
console.error side-channel log produced when the dynamic callback throws. -/
def shouldSaveUTM (cfg : UTMConfig) (s : Cookie.Store) (key value : String) :
    Bool × List String :=
  let currentValue := Cookie.getCookie s key
  match cfg.attribution with
  | .first => (currentValue == none, [])
  | .last => (true, [])
  | .dynamic =>
    match cfg.attributionCallback with
    | none => (true, [])
    | some cb =>
      match cb (jsOrEmpty currentValue) value with
      | .ok shouldSave => (shouldSave == value, [])
      | .error e => (false, ["Error in attribution callback: " ++ e])

/-- The options literal saveUTM builds from the current config; every
property is present in the literal, so the spread in setCookie takes all of
them over the store defaults. -/
def policyOptions (cfg : UTMConfig) : Cookie.PartialOptions :=
  { days := some cfg.expirationDays
  , domain := some cfg.domain
  , path := some cfg.path
  , secure := some cfg.secure
  , sameSite := some cfg.sameSite }

/-- saveUTM from utm.ts.  A thrown validation error is Except.error; a
successful call returns the new store and the side-channel log. -/
def saveUTM (cfg : UTMConfig) (s : Cookie.Store) (key value : String) :
    Except String (Cookie.Store × List String) :=
  if ¬ jsStartsWith key "utm_" then
    .error ("Invalid UTM parameter: " ++ key
      ++ ". UTM parameters must start with utm_")
  else if ¬ isValidUTMParam key then
    .error ("Invalid UTM parameter: " ++ key ++ ". Must be one of: "
      ++ String.intercalate ", " VALID_UTM_PARAMS)
  else
    let r := shouldSaveUTM cfg s key value
    if r.1 then
      .ok (Cookie.setCookie s key value (policyOptions cfg), r.2)
    else
      .ok (s, r.2)

/-- getUTM from utm.ts: same validation as saveUTM, then getCookie. -/
def getUTM (s : Cookie.Store) (key : String) : Except String (Option String) :=
  if ¬ jsStartsWith key "utm_" then
    .error ("Invalid UTM parameter: " ++ key
      ++ ". UTM parameters must start with utm_")
  else if ¬ isValidUTMParam key then
    .error ("Invalid UTM parameter: " ++ key ++ ". Must be one of: "
      ++ String.intercalate ", " VALID_UTM_PARAMS)
  else
    .ok (Cookie.getCookie s key)

/-- getUTMs from utm.ts: reduce over getAllCookies keeping entries whose key
starts with utm_ and is a whitelisted parameter; the accumulator is a JS
object written with bracket assignment, modelled by mapSet. -/
def getUTMs (s : Cookie.Store) : List (String × String) :=
  (Cookie.getAllCookies s).foldl
    (fun utms e =>
      if jsStartsWith e.1 "utm_" && isValidUTMParam e.1 then
        Cookie.mapSet utms e.1 e.2
      else utms)
    []

/-- The loop body of saveUTMs from utm.ts: one saveUTM call with its
try/catch, the caught error going to the console.error side channel. -/
def saveStep (cfg : UTMConfig) (acc : Cookie.Store × List String)
    (e : String × String) : Cookie.Store × List String :=
  match saveUTM cfg acc.1 e.1 e.2 with
  | .ok (s2, log) => (s2, acc.2 ++ log)
  | .error err => (acc.1, acc.2 ++ ["Error saving UTM parameter " ++ e.1 ++ ": " ++ err])

/-- saveUTMs from utm.ts: apply saveUTM to each entry, catching each thrown
error into the console.error side channel and continuing. -/
def saveUTMs (cfg : UTMConfig) (s : Cookie.Store)
    (params : List (String × String)) : Cookie.Store × List String :=
  params.foldl (saveStep cfg) (s, [])

end Utm

namespace IndexMod

/-- UTMConfig from part_003 (the package index module). -/
structure UTMConfig where
  attribution : Utm.AttributionStrategy
  expirationDays : Int
  domain : Option String
  attributionCallback : Option (String → String → Except String String)

/-- defaultConfig from part_003. -/
def defaultConfig : UTMConfig :=
  { attribution := .last
  , expirationDays := 30
  , domain := none
  , attributionCallback := none }

/-- validateUTMKey from part_003: throws on a key without the utm_ start or
whose lower-cased form is not whitelisted. -/
def validateUTMKey (k : String) : Except String Unit :=
  if ¬ Utm.jsStartsWith k "utm_" then
    .error "UTM parameter key must start with utm_"
  else if ¬ Utm.VALID_UTM_PARAMS.contains (Utm.jsToLowerCase k) then
    .error ("Invalid UTM parameter: " ++ k ++ ". Must be one of: "
      ++ String.intercalate ", " Utm.VALID_UTM_PARAMS)
  else
    .ok ()

/-- shouldSaveUTM from part_003: takes the current value as an argument. -/
def shouldSaveUTM (cfg : UTMConfig) (currentValue : Option String)
    (newValue : String) : Bool × List String :=
  match cfg.attribution with
  | .first => (currentValue == none, [])
  | .last => (true, [])
  | .dynamic =>
    match cfg.attributionCallback with
    | none => (true, [])
    | some cb =>
      match cb (Utm.jsOrEmpty currentValue) newValue with
      | .ok r => (r == newValue, [])
      | .error e => (false, ["Error in attribution callback: " ++ e])

/-- JS days || expirationDays on the optional override: undefined and 0 are
falsy and fall back to the configured expiration. -/
def jsOrDays (days : Option Int) (dflt : Int) : Int :=
  match days with
  | none => dflt
  | some d => if d = 0 then dflt else d

/-- The options literal part_003 saveUTMs builds: days, domain, secure and
sameSite present, path absent from the literal. -/
def writeOptions (cfg : UTMConfig) (days : Option Int) : Cookie.PartialOptions :=
  { days := some (jsOrDays days cfg.expirationDays)
  , domain := some cfg.domain
  , path := none
  , secure := some (some true)
  , sameSite := some (some Cookie.SameSite.lax) }

/-- saveUTMs from part_003 (a single-key save with optional ttl override). -/
def saveUTMs (cfg : UTMConfig) (s : Cookie.Store) (key value : String)
    (days : Option Int) : Except String (Cookie.Store × List String) :=
  match validateUTMKey key with
  | .error e => .error e
  | .ok _ =>
    let currentValue := Cookie.getCookie s key
    let r := shouldSaveUTM cfg currentValue value
    if r.1 then
      .ok (Cookie.setCookie s key value (writeOptions cfg days), r.2)
    else
      .ok (s, r.2)

/-- getUTMs from part_003: reduce over getAllCookies keeping every entry
whose key starts with utm_, with no whitelist membership check. -/
def getUTMs (s : Cookie.Store) : List (String × String) :=
  (Cookie.getAllCookies s).foldl
    (fun utms e =>
      if Utm.jsStartsWith e.1 "utm_" then Cookie.mapSet utms e.1 e.2 else utms)
    []

end IndexMod

namespace Cookie

/-- The separator characters of section 4.1 that a percent-encoded name or
value must survive: whitespace, double quote, comma, semicolon, backslash and
the equals sign (written via code points where escaping would be needed). -/
def sepChars : List Char :=
  [' ', Char.ofNat 9, Char.ofNat 10, Char.ofNat 13, Char.ofNat 34,
   ',', ';', Char.ofNat 92, '=']

/-- The wire line as the spec words it: percent-encoded name and value, the
expires HTTP-date at now plus days of 86400 seconds, the path, then an
optional domain segment, an optional samesite segment and a bare secure
flag, each emitted only when the option is set (and truthy). -/
def specCookieLine (now : Int) (name value : String) (o : CookieOptions) : String :=
  encodeURIComponent name ++ "=" ++ encodeURIComponent value
    ++ "; expires=" ++ toUTCString (now + o.days * 86400000)
    ++ "; path=" ++ renderOptStr o.path
    ++ (match o.domain with
        | some d => if d = "" then "" else "; domain=" ++ d
        | none => "")
    ++ (match o.sameSite with
        | some ss => "; samesite=" ++ ss.render
        | none => "")
    ++ (match o.secure with
        | some b => if b then "; secure" else ""
        | none => "")

end Cookie

instance {e a : Type} [DecidableEq e] [DecidableEq a] : DecidableEq (Except e a) := fun x y =>
  match x, y with
  | .ok v1, .ok v2 =>
    if h : v1 = v2 then .isTrue (by rw [h]) else .isFalse (by intro hc; cases hc; exact h rfl)
  | .error e1, .error e2 =>
    if h : e1 = e2 then .isTrue (by rw [h]) else .isFalse (by intro hc; cases hc; exact h rfl)
  | .ok _, .error _ => .isFalse (by intro hc; cases hc)
  | .error _, .ok _ => .isFalse (by intro hc; cases hc)

/-- A first-touch configuration, as the utm.test.ts first-touch test sets. -/
def firstCfg : Utm.UTMConfig :=
  { Utm.DEFAULT_CONFIG with attribution := .first }

/-- The tie-break callback of the spec's dynamic example: keep the incoming
value exactly when it contains the substring google. -/
def googleCb : String → String → Except String String :=
  fun cur new => .ok (if Utm.jsIncludes new "google" then new else cur)

/-- A dynamic configuration using googleCb. -/
def dynCfg : Utm.UTMConfig :=
  { Utm.DEFAULT_CONFIG with attribution := .dynamic, attributionCallback := some googleCb }

/-- A tie-break callback that always throws. -/
def failCb : String → String → Except String String :=
  fun _ _ => .error "boom"

/-- A dynamic configuration whose callback always throws. -/
def failCfg : Utm.UTMConfig :=
  { Utm.DEFAULT_CONFIG with attribution := .dynamic, attributionCallback := some failCb }

/-- A store entry used by concrete witnesses. -/
def demoEntry : Cookie.StoredCookie :=
  { value := "google", options := Cookie.DEFAULT_OPTIONS }

/-- A store holding one whitelisted utm entry. -/
def demoStore : Cookie.Store :=
  [("utm_source", demoEntry)]

/-- A store holding a sentinel entry and a utm entry, probing the frame
property of areCookiesEnabled. -/
def probeStore : Cookie.Store :=
  [("__test__", { value := "old", options := Cookie.DEFAULT_OPTIONS }), ("utm_source", demoEntry)]

namespace Cookie

theorem mapGet_mapSet {α : Type} (s : List (String × α)) (n k : String) (v : α) :
    mapGet (mapSet s n v) k = if n = k then some v else mapGet s k := by
  induction s with
  | nil =>
    by_cases h : n = k <;> simp [mapSet, mapGet, h]
  | cons hd tl ih =>
    obtain ⟨k1, v1⟩ := hd
    by_cases h1 : k1 = n
    · subst h1
      by_cases h2 : k1 = k <;> simp [mapSet, mapGet, h2]
    · by_cases h2 : k1 = k
      · subst h2
        have hnk : ¬ n = k1 := fun h => h1 h.symm
        simp [mapSet, mapGet, h1, hnk]
      · simp [mapSet, mapGet, h1, h2, ih]

theorem mapGet_mapDelete {α : Type} (s : List (String × α)) (n k : String) :
    mapGet (mapDelete s n) k = if n = k then none else mapGet s k := by
  induction s with
  | nil =>
    by_cases h : n = k <;> simp [mapDelete, mapGet, h]
  | cons hd tl ih =>
    obtain ⟨k1, v1⟩ := hd
    by_cases h1 : k1 = n
    · subst h1
      by_cases h2 : k1 = k
      · subst h2
        simp [mapDelete, mapGet, ih]
      · simp [mapDelete, mapGet, h2, ih]
    · by_cases h2 : k1 = k
      · subst h2
        have hnk : ¬ n = k1 := fun h => h1 h.symm
        simp [mapDelete, mapGet, h1, hnk]
      · simp [mapDelete, mapGet, h1, h2, ih]

end Cookie

namespace Cookie

theorem mapGet_append {α : Type} (a b : List (String × α)) (k : String) :
    mapGet (a ++ b) k =
      match mapGet a k with
      | some v => some v
      | none => mapGet b k := by
  induction a with
  | nil => simp [mapGet]
  | cons hd tl ih =>
    obtain ⟨k1, v1⟩ := hd
    by_cases h : k1 = k <;> simp [mapGet, h, ih]

theorem mapSet_of_absent {α : Type} (s : List (String × α)) (k : String) (v : α)
    (h : mapGet s k = none) : mapSet s k v = s ++ [(k, v)] := by
  induction s with
  | nil => simp [mapSet]
  | cons hd tl ih =>
    obtain ⟨k1, v1⟩ := hd
    by_cases h1 : k1 = k
    · subst h1
      simp [mapGet] at h
    · simp [mapGet, h1] at h
      simp [mapSet, h1, ih h]

theorem foldl_mapSet_filter (p : String × String → Bool) :
    ∀ (l acc : List (String × String)),
      (l.map Prod.fst).Nodup →
      (∀ k, k ∈ l.map Prod.fst → mapGet acc k = none) →
      l.foldl (fun u e => if p e then mapSet u e.1 e.2 else u) acc
        = acc ++ l.filter p := by
  intro l
  induction l with
  | nil => intro acc _ _; simp
  | cons hd tl ih =>
    intro acc hnd hdisj
    obtain ⟨k, v⟩ := hd
    have hknot : k ∉ tl.map Prod.fst := by
      simp only [List.map_cons, List.nodup_cons] at hnd
      exact hnd.1
    have hndtl : (tl.map Prod.fst).Nodup := by
      simp only [List.map_cons, List.nodup_cons] at hnd
      exact hnd.2
    by_cases hp : p (k, v)
    · have hacc : mapGet acc k = none := hdisj k (by simp)
      have hstep : mapSet acc k v = acc ++ [(k, v)] := mapSet_of_absent acc k v hacc
      have hdisj2 : ∀ k2, k2 ∈ tl.map Prod.fst → mapGet (acc ++ [(k, v)]) k2 = none := by
        intro k2 hk2
        rw [mapGet_append, hdisj k2 (by simp [hk2])]
        have hne : ¬ k = k2 := by
          intro hkk
          exact hknot (hkk ▸ hk2)
        simp [mapGet, hne]
      have := ih (acc ++ [(k, v)]) hndtl hdisj2
      simp [List.foldl_cons, hp, hstep, this, List.filter_cons]
    · have hdisj2 : ∀ k2, k2 ∈ tl.map Prod.fst → mapGet acc k2 = none := by
        intro k2 hk2
        exact hdisj k2 (by simp [hk2])
      have := ih acc hndtl hdisj2
      simp [List.foldl_cons, hp, this, List.filter_cons]

end Cookie

namespace Cookie

theorem hexDigit_mem (n : Nat) : hexDigit n ∈ hexChars := by
  unfold hexDigit
  have h : n % 16 < 16 := Nat.mod_lt _ (by norm_num)
  set m := n % 16 with hm
  interval_cases m <;> decide

theorem percentByte_mem (b : Nat) (c : Char) (h : c ∈ percentByte b) :
    c = '%' ∨ c ∈ hexChars := by
  simp only [percentByte, List.mem_cons, List.not_mem_nil, or_false] at h
  rcases h with rfl | rfl | rfl
  · left; rfl
  · right; exact hexDigit_mem _
  · right; exact hexDigit_mem _

theorem encodeChar_classify (c0 c : Char) (h : c ∈ encodeChar c0) :
    isUnreservedCh c = true ∨ c = '%' ∨ c ∈ hexChars := by
  unfold encodeChar at h
  by_cases hu : isUnreservedCh c0
  · simp [hu] at h
    subst h
    exact Or.inl hu
  · simp [hu, List.mem_flatMap] at h
    obtain ⟨b, _, hb⟩ := h
    exact Or.inr (percentByte_mem b c hb)

theorem encodeURI_classify (s : String) (c : Char)
    (h : c ∈ (encodeURIComponent s).data) :
    isUnreservedCh c = true ∨ c = '%' ∨ c ∈ hexChars := by
  simp only [encodeURIComponent, List.mem_flatMap] at h
  obtain ⟨c0, _, hc0⟩ := h
  exact encodeChar_classify c0 c hc0

theorem sep_not_in_encode (s : String) (c : Char) (hc : c ∈ sepChars) :
    ¬ c ∈ (encodeURIComponent s).data := by
  intro h
  have hclass := encodeURI_classify s c h
  fin_cases hc <;> revert hclass <;> decide

theorem gen_eq_specLine (now : Int) (name value : String) (o : CookieOptions) :
    generateCookieString now name value o = specCookieLine now name value o := by
  have hnum : (24 * 60 * 60 * 1000 : Int) = 86400000 := by norm_num
  obtain ⟨days, dom, path, sec, ss⟩ := o
  apply String.ext
  rcases dom with _ | d
  · rcases ss with _ | ss <;> rcases sec with _ | b
    all_goals try cases b
    all_goals
      simp_all [generateCookieString, specCookieLine, hnum, String.data_append,
        List.append_assoc]
  · rcases eq_or_ne d "" with hd | hd <;> rcases ss with _ | ss <;> rcases sec with _ | b
    all_goals try cases b
    all_goals
      simp_all [generateCookieString, specCookieLine, hnum, String.data_append,
        List.append_assoc]

end Cookie

namespace Utm

theorem saveUTM_isOk (cfg : UTMConfig) (s : Cookie.Store) (k v : String) :
    (saveUTM cfg s k v).isOk = (jsStartsWith k "utm_" && isValidUTMParam k) := by
  unfold saveUTM
  by_cases h1 : jsStartsWith k "utm_" = true
  · by_cases h2 : isValidUTMParam k = true
    · cases hr : (shouldSaveUTM cfg s k v).1 <;> simp [h1, h2, hr, Except.isOk, Except.toBool]
    · simp [h1, h2, Except.isOk, Except.toBool]
  · simp [h1, Except.isOk, Except.toBool]

theorem getUTM_isOk (s : Cookie.Store) (k : String) :
    (getUTM s k).isOk = (jsStartsWith k "utm_" && isValidUTMParam k) := by
  unfold getUTM
  by_cases h1 : jsStartsWith k "utm_" = true
  · by_cases h2 : isValidUTMParam k = true <;> simp [h1, h2, Except.isOk, Except.toBool]
  · simp [h1, Except.isOk, Except.toBool]

theorem saveUTM_invalid_error (cfg : UTMConfig) (s : Cookie.Store) (k v : String)
    (h : (jsStartsWith k "utm_" && isValidUTMParam k) = false) :
    ∃ e, saveUTM cfg s k v = .error e := by
  have hok := saveUTM_isOk cfg s k v
  rw [h] at hok
  cases hsave : saveUTM cfg s k v with
  | ok r => rw [hsave] at hok; simp [Except.isOk, Except.toBool] at hok
  | error e => exact ⟨e, rfl⟩

theorem saveStep_fst (cfg : UTMConfig) (st : Cookie.Store) (l1 l2 : List String)
    (e : String × String) :
    (saveStep cfg (st, l1) e).1 = (saveStep cfg (st, l2) e).1 := by
  unfold saveStep
  cases h : saveUTM cfg st e.1 e.2 with
  | ok r => obtain ⟨s2, log⟩ := r; simp
  | error err => simp

theorem foldl_saveStep_fst (cfg : UTMConfig) (l : List (String × String)) :
    ∀ (st : Cookie.Store) (l1 l2 : List String),
      (l.foldl (saveStep cfg) (st, l1)).1 = (l.foldl (saveStep cfg) (st, l2)).1 := by
  induction l with
  | nil => intro st l1 l2; simp
  | cons hd tl ih =>
    intro st l1 l2
    simp only [List.foldl_cons]
    calc (tl.foldl (saveStep cfg) (saveStep cfg (st, l1) hd)).1
        = (tl.foldl (saveStep cfg)
            ((saveStep cfg (st, l1) hd).1, (saveStep cfg (st, l1) hd).2)).1 := by
          rw [Prod.mk.eta]
      _ = (tl.foldl (saveStep cfg)
            ((saveStep cfg (st, l2) hd).1, (saveStep cfg (st, l1) hd).2)).1 := by
          rw [saveStep_fst cfg st l1 l2 hd]
      _ = (tl.foldl (saveStep cfg)
            ((saveStep cfg (st, l2) hd).1, (saveStep cfg (st, l2) hd).2)).1 := by
          exact ih _ _ _
      _ = (tl.foldl (saveStep cfg) (saveStep cfg (st, l2) hd)).1 := by
          rw [Prod.mk.eta]

end Utm

/-- Claim C1 (code bug evidence): the store's read path never consults a
clock or the ttl.  After any setCookie with any ttlDays, getCookie returns
the written value; since getCookie takes no time input and no sweep exists,
the same value is returned at every simulated instant, including strictly
after now plus d days of 86400 seconds, where the claim requires absence.
The closed conjunct evaluates the concrete failing input, a write with
ttlDays one. -/
theorem c1_read_ignores_expiry :
    (∀ (s : Cookie.Store) (name value : String) (p : Cookie.PartialOptions),
      Cookie.getCookie (Cookie.setCookie s name value p) name = some value)
    ∧ Cookie.getCookie (Cookie.setCookie [] "utm_source" "google"
        { Cookie.emptyPartial with days := some 1 }) "utm_source" = some "google" := by
  constructor
  · intro s name value p
    simp [Cookie.getCookie, Cookie.setCookie, Cookie.mapGet_mapSet]
  · decide

/-- Claim C3: under the first strategy a valid key is written exactly when
the store has no prior entry for it (a stored empty string is a prior
value); otherwise the call is a silent no-op returning the unchanged store
with an empty log, never an error.  The closed conjunct runs the
save a, save b sequence and reads back a. -/
theorem c3_first_touch_no_overwrite (cfg : Utm.UTMConfig) (s : Cookie.Store)
    (k v : String)
    (hstrat : cfg.attribution = .first)
    (h1 : Utm.jsStartsWith k "utm_" = true)
    (h2 : Utm.isValidUTMParam k = true) :
    Utm.saveUTM cfg s k v =
      .ok (if Cookie.getCookie s k = none
           then Cookie.setCookie s k v (Utm.policyOptions cfg)
           else s, [])
    ∧ ((Utm.saveUTM firstCfg [] "utm_source" "a").bind fun r1 =>
       (Utm.saveUTM firstCfg r1.1 "utm_source" "b").bind fun r2 =>
       Utm.getUTM r2.1 "utm_source") = .ok (some "a") := by
  constructor
  · cases hc : Cookie.getCookie s k <;>
      simp [Utm.saveUTM, h1, h2, Utm.shouldSaveUTM, hstrat, hc]
  · decide

/-- Witness for C3 at a concrete prior value: saving b over a stored entry
is a silent no-op. -/
theorem c3_first_touch_no_overwrite_witness :
    Utm.saveUTM firstCfg demoStore "utm_source" "b" = .ok (demoStore, []) := by
  have h := (c3_first_touch_no_overwrite firstCfg demoStore "utm_source" "b"
    rfl (by decide) (by decide)).1
  rw [if_neg (show ¬ (Cookie.getCookie demoStore "utm_source" = none) from by decide)] at h
  exact h

/-- Claim C5: when the dynamic tie-break callback throws, saveUTM still
returns ok (no propagation), leaves the store untouched, and reports the
failure only on the console.error side channel. -/
theorem c5_callback_failure_contained (cfg : Utm.UTMConfig) (s : Cookie.Store)
    (k v : String) (cb : String → String → Except String String) (e : String)
    (hstrat : cfg.attribution = .dynamic)
    (hcb : cfg.attributionCallback = some cb)
    (herr : cb (Utm.jsOrEmpty (Cookie.getCookie s k)) v = .error e)
    (h1 : Utm.jsStartsWith k "utm_" = true)
    (h2 : Utm.isValidUTMParam k = true) :
    Utm.saveUTM cfg s k v = .ok (s, ["Error in attribution callback: " ++ e]) := by
  simp [Utm.saveUTM, h1, h2, Utm.shouldSaveUTM, hstrat, hcb, herr]

/-- Witness for C5: a callback that always throws, on an empty store. -/
theorem c5_callback_failure_contained_witness :
    Utm.saveUTM failCfg [] "utm_source" "x"
      = .ok ([], ["Error in attribution callback: boom"]) :=
  c5_callback_failure_contained failCfg [] "utm_source" "x" failCb "boom"
    rfl rfl rfl (by decide) (by decide)

/-- Claim C2: under the dynamic strategy with a configured callback, a valid
key is written exactly when the callback applied to the prior value (empty
string when absent) and the incoming value returns a value equal to the
incoming one; any other return leaves the store unchanged; with no callback
the strategy always writes (last-touch behaviour).  The closed conjunct runs
the facebook, google-ads, bing sequence and reads back google-ads. -/
theorem c2_dynamic_tiebreak (cfg : Utm.UTMConfig) (s : Cookie.Store)
    (k v : String)
    (hstrat : cfg.attribution = .dynamic)
    (h1 : Utm.jsStartsWith k "utm_" = true)
    (h2 : Utm.isValidUTMParam k = true) :
    (∀ (cb : String → String → Except String String) (r : String),
      cfg.attributionCallback = some cb →
      cb (Utm.jsOrEmpty (Cookie.getCookie s k)) v = .ok r →
      Utm.saveUTM cfg s k v =
        .ok (if r = v then Cookie.setCookie s k v (Utm.policyOptions cfg) else s, []))
    ∧ (cfg.attributionCallback = none →
      Utm.saveUTM cfg s k v = .ok (Cookie.setCookie s k v (Utm.policyOptions cfg), []))
    ∧ ((Utm.saveUTM dynCfg [] "utm_source" "facebook").bind fun r1 =>
       (Utm.saveUTM dynCfg r1.1 "utm_source" "google-ads").bind fun r2 =>
       (Utm.saveUTM dynCfg r2.1 "utm_source" "bing").bind fun r3 =>
       Utm.getUTM r3.1 "utm_source") = .ok (some "google-ads") := by
  refine ⟨?_, ?_, by decide⟩
  · intro cb r hcb hok
    by_cases hrv : r = v <;>
      simp [Utm.saveUTM, h1, h2, Utm.shouldSaveUTM, hstrat, hcb, hok, hrv]
  · intro hcb
    simp [Utm.saveUTM, h1, h2, Utm.shouldSaveUTM, hstrat, hcb]

/-- Witness for C2: the first save of the dynamic example does not write,
because the callback returns the prior empty string, not the incoming
value. -/
theorem c2_dynamic_tiebreak_witness :
    Utm.saveUTM dynCfg [] "utm_source" "facebook" = .ok ([], []) := by
  have h := (c2_dynamic_tiebreak dynCfg [] "utm_source" "facebook"
      rfl (by decide) (by decide)).1 googleCb "" rfl (by decide)
  rw [if_neg (show ¬ ("" = "facebook") from by decide)] at h
  exact h

/-- Claim C4 counterexample: the key UTM_SOURCE lower-cases to the
whitelisted utm_source, yet both saveUTM and getUTM throw on it, because the
prefix check runs before any case normalization. -/
theorem c4_counterexample :
    Utm.jsToLowerCase "UTM_SOURCE" = "utm_source"
    ∧ "utm_source" ∈ Utm.VALID_UTM_PARAMS
    ∧ (Utm.saveUTM Utm.DEFAULT_CONFIG [] "UTM_SOURCE" "g").isOk = false
    ∧ (Utm.getUTM [] "UTM_SOURCE").isOk = false := by decide

/-- Claim C4 amended: saveUTM and getUTM succeed exactly when the key starts
with the exact lower-case prefix utm_ and its lower-cased form is one of the
five whitelisted names; every other key makes both throw. -/
theorem c4_validation_boundary (cfg : Utm.UTMConfig) (s : Cookie.Store)
    (k v : String) :
    (Utm.saveUTM cfg s k v).isOk = (Utm.jsStartsWith k "utm_" && Utm.isValidUTMParam k)
    ∧ (Utm.getUTM s k).isOk = (Utm.jsStartsWith k "utm_" && Utm.isValidUTMParam k) :=
  ⟨Utm.saveUTM_isOk cfg s k v, Utm.getUTM_isOk s k⟩

/-- Claim C6: saveUTMs is total (no exception escapes, by its type); an
entry with an invalid key contributes nothing to the resulting store and
does not abort the remaining entries, and the closed conjuncts run the
utm_source, bogus, utm_medium batch: exactly the two valid entries are
stored and the one failure is reported on the side channel. -/
theorem c6_saveAll_best_effort (cfg : Utm.UTMConfig) (s : Cookie.Store)
    (pre post : List (String × String)) (k v : String)
    (hinv : (Utm.jsStartsWith k "utm_" && Utm.isValidUTMParam k) = false) :
    (Utm.saveUTMs cfg s (pre ++ (k, v) :: post)).1 = (Utm.saveUTMs cfg s (pre ++ post)).1
    ∧ Utm.getUTMs (Utm.saveUTMs Utm.DEFAULT_CONFIG []
        [("utm_source", "google"), ("bogus", "x"), ("utm_medium", "cpc")]).1
      = [("utm_source", "google"), ("utm_medium", "cpc")]
    ∧ (Utm.saveUTMs Utm.DEFAULT_CONFIG []
        [("utm_source", "google"), ("bogus", "x"), ("utm_medium", "cpc")]).2.length = 1 := by
  refine ⟨?_, by decide, by decide⟩
  unfold Utm.saveUTMs
  rw [List.foldl_append, List.foldl_append]
  set mid := List.foldl (Utm.saveStep cfg) (s, []) pre with hmid
  obtain ⟨err, herr⟩ := Utm.saveUTM_invalid_error cfg mid.1 k v hinv
  have hstep : Utm.saveStep cfg mid (k, v)
      = (mid.1, mid.2 ++ ["Error saving UTM parameter " ++ k ++ ": " ++ err]) := by
    simp [Utm.saveStep, herr]
  rw [List.foldl_cons, hstep]
  calc (List.foldl (Utm.saveStep cfg)
          (mid.1, mid.2 ++ ["Error saving UTM parameter " ++ k ++ ": " ++ err]) post).1
      = (List.foldl (Utm.saveStep cfg) (mid.1, mid.2) post).1 :=
        Utm.foldl_saveStep_fst cfg post mid.1 _ _
    _ = (List.foldl (Utm.saveStep cfg) mid post).1 := by rw [Prod.mk.eta]

/-- Witness for C6 at the concrete batch: dropping the bogus entry leaves
the resulting store unchanged. -/
theorem c6_saveAll_best_effort_witness :
    (Utm.saveUTMs Utm.DEFAULT_CONFIG []
       [("utm_source", "google"), ("bogus", "x"), ("utm_medium", "cpc")]).1
    = (Utm.saveUTMs Utm.DEFAULT_CONFIG []
       [("utm_source", "google"), ("utm_medium", "cpc")]).1 :=
  (c6_saveAll_best_effort Utm.DEFAULT_CONFIG [] [("utm_source", "google")]
    [("utm_medium", "cpc")] "bogus" "x" (by decide)).1

/-- Claim C7 counterexample: a store entry utm_bogus carries the prefix but
is outside the whitelist, and the index module getUTMs returns it, so
getAll does contain a key outside the whitelist. -/
theorem c7_counterexample :
    IndexMod.getUTMs [("utm_bogus", { value := "x", options := Cookie.DEFAULT_OPTIONS })]
      = [("utm_bogus", "x")]
    ∧ Utm.isValidUTMParam "utm_bogus" = false := by decide

/-- Claim C7 amended: on a store with distinct keys, the utm.ts getUTMs
returns exactly the entries whose stored key starts with utm_ and is
whitelisted (keys exactly as stored), while the index module getUTMs
filters by the utm_ start only, with no whitelist membership check. -/
theorem c7_getAll_prefix_whitelist (s : Cookie.Store)
    (hnd : (s.map Prod.fst).Nodup) (k v : String) :
    ((k, v) ∈ Utm.getUTMs s ↔
      (k, v) ∈ Cookie.getAllCookies s
        ∧ (Utm.jsStartsWith k "utm_" && Utm.isValidUTMParam k) = true)
    ∧ ((k, v) ∈ IndexMod.getUTMs s ↔
      (k, v) ∈ Cookie.getAllCookies s ∧ Utm.jsStartsWith k "utm_" = true) := by
  have hmapeq : (Cookie.getAllCookies s).map Prod.fst = s.map Prod.fst := by
    simp only [Cookie.getAllCookies, List.map_map]
    rfl
  have hkeys : ((Cookie.getAllCookies s).map Prod.fst).Nodup := by
    rw [hmapeq]; exact hnd
  have hdisj : ∀ k2, k2 ∈ (Cookie.getAllCookies s).map Prod.fst →
      Cookie.mapGet ([] : List (String × String)) k2 = none := by
    intro k2 _; rfl
  have hU : Utm.getUTMs s
      = List.filter (fun e => Utm.jsStartsWith e.1 "utm_" && Utm.isValidUTMParam e.1)
          (Cookie.getAllCookies s) := by
    have h := Cookie.foldl_mapSet_filter
      (fun e => Utm.jsStartsWith e.1 "utm_" && Utm.isValidUTMParam e.1)
      (Cookie.getAllCookies s) [] hkeys hdisj
    simpa [Utm.getUTMs] using h
  have hI : IndexMod.getUTMs s
      = List.filter (fun e => Utm.jsStartsWith e.1 "utm_")
          (Cookie.getAllCookies s) := by
    have h := Cookie.foldl_mapSet_filter
      (fun e => Utm.jsStartsWith e.1 "utm_")
      (Cookie.getAllCookies s) [] hkeys hdisj
    simpa [IndexMod.getUTMs] using h
  constructor
  · rw [hU]
    simp [List.mem_filter]
  · rw [hI]
    simp [List.mem_filter]

/-- Witness for C7: the whitelisted entry of the demo store is returned by
the utm.ts getUTMs. -/
theorem c7_getAll_prefix_whitelist_witness :
    ("utm_source", "google") ∈ Utm.getUTMs demoStore :=
  ((c7_getAll_prefix_whitelist demoStore (by decide) "utm_source" "google").1).mpr
    ⟨by decide, by decide⟩

/-- Claim C8 counterexample: with the default 30-day policy, a supplied ttl
override of 0 days is not used: the stored entry carries 30 days, because
the source merges the override with a JS or, under which 0 is falsy. -/
theorem c8_counterexample :
    IndexMod.saveUTMs IndexMod.defaultConfig [] "utm_source" "g" (some 0)
      = .ok ([("utm_source",
          { value := "g"
          , options :=
            { days := 30, domain := none, path := some "/"
            , secure := some true, sameSite := some Cookie.SameSite.lax } })], [])
    ∧ (30 : Int) ≠ 0 := by decide

/-- Claim C8 amended: on a write decision the store is called with the
override days when one is supplied and nonzero; an override of 0, like an
absent override, falls back to the policy's configured expirationDays
(JS or semantics); the scope and security options of the write come from
the writeOptions literal built from the policy. -/
theorem c8_ttl_override (cfg : IndexMod.UTMConfig) (s : Cookie.Store)
    (k v : String) (d : Int)
    (hstrat : cfg.attribution = .last)
    (h1 : Utm.jsStartsWith k "utm_" = true)
    (h2 : Utm.VALID_UTM_PARAMS.contains (Utm.jsToLowerCase k) = true) :
    (d ≠ 0 →
      IndexMod.saveUTMs cfg s k v (some d)
        = .ok (Cookie.setCookie s k v (IndexMod.writeOptions cfg (some d)), [])
      ∧ (IndexMod.writeOptions cfg (some d)).days = some d)
    ∧ (IndexMod.saveUTMs cfg s k v (some 0)
        = .ok (Cookie.setCookie s k v (IndexMod.writeOptions cfg (some 0)), [])
      ∧ (IndexMod.writeOptions cfg (some 0)).days = some cfg.expirationDays)
    ∧ (IndexMod.saveUTMs cfg s k v none
        = .ok (Cookie.setCookie s k v (IndexMod.writeOptions cfg none), [])
      ∧ (IndexMod.writeOptions cfg none).days = some cfg.expirationDays) := by
  have h2m : Utm.jsToLowerCase k ∈ Utm.VALID_UTM_PARAMS := by simpa using h2
  refine ⟨fun hd => ⟨?_, ?_⟩, ⟨?_, ?_⟩, ⟨?_, ?_⟩⟩
  · simp [IndexMod.saveUTMs, IndexMod.validateUTMKey, h1, h2m,
      IndexMod.shouldSaveUTM, hstrat]
  · simp [IndexMod.writeOptions, IndexMod.jsOrDays, hd]
  · simp [IndexMod.saveUTMs, IndexMod.validateUTMKey, h1, h2m,
      IndexMod.shouldSaveUTM, hstrat]
  · simp [IndexMod.writeOptions, IndexMod.jsOrDays]
  · simp [IndexMod.saveUTMs, IndexMod.validateUTMKey, h1, h2m,
      IndexMod.shouldSaveUTM, hstrat]
  · simp [IndexMod.writeOptions, IndexMod.jsOrDays]

/-- Witness for C8: a nonzero override of 5 days is used as given. -/
theorem c8_ttl_override_witness :
    IndexMod.saveUTMs IndexMod.defaultConfig [] "utm_source" "g" (some 5)
      = .ok (Cookie.setCookie [] "utm_source" "g"
          (IndexMod.writeOptions IndexMod.defaultConfig (some 5)), [])
    ∧ (IndexMod.writeOptions IndexMod.defaultConfig (some 5)).days = some 5 :=
  (c8_ttl_override IndexMod.defaultConfig [] "utm_source" "g" 5
    rfl (by decide) (by decide)).1 (by decide)

/-- Claim C9: the generated wire line has exactly the documented shape,
name=value percent-encoded, expires at now plus ttlDays of 86400 seconds
rendered as an HTTP-date, the path, then domain and samesite segments only
when set and a bare secure flag only when true; and the percent-encoded name
and value contain none of the separator characters (whitespace, double
quote, comma, semicolon, backslash, equals). -/
theorem c9_wire_format (now : Int) (name value : String)
    (o : Cookie.CookieOptions) :
    Cookie.generateCookieString now name value o = Cookie.specCookieLine now name value o
    ∧ (∀ c, c ∈ Cookie.sepChars → ¬ c ∈ (Cookie.encodeURIComponent name).data)
    ∧ (∀ c, c ∈ Cookie.sepChars → ¬ c ∈ (Cookie.encodeURIComponent value).data) :=
  ⟨Cookie.gen_eq_specLine now name value o,
   fun c hc => Cookie.sep_not_in_encode name c hc,
   fun c hc => Cookie.sep_not_in_encode value c hc⟩

/-- Witness for C9 at a concrete name, value and option set, checking the
shape equality and that the semicolon of the value does not survive
encoding. -/
theorem c9_wire_format_witness :
    Cookie.generateCookieString 0 "a b" "c;d" Cookie.DEFAULT_OPTIONS
      = Cookie.specCookieLine 0 "a b" "c;d" Cookie.DEFAULT_OPTIONS
    ∧ ¬ ';' ∈ (Cookie.encodeURIComponent "c;d").data :=
  ⟨(c9_wire_format 0 "a b" "c;d" Cookie.DEFAULT_OPTIONS).1,
   (c9_wire_format 0 "a b" "c;d" Cookie.DEFAULT_OPTIONS).2.2 ';' (by decide)⟩

/-- Claim C10: the availability probe leaves every entry other than the
sentinel key unchanged and leaves the sentinel absent afterwards, so any
value previously stored under the sentinel is overwritten and deleted, not
restored. -/
theorem c10_probe_frame (s : Cookie.Store) :
    (∀ k, k ≠ "__test__" →
      Cookie.mapGet (Cookie.areCookiesEnabled s).2 k = Cookie.mapGet s k)
    ∧ Cookie.getCookie (Cookie.areCookiesEnabled s).2 "__test__" = none := by
  constructor
  · intro k hk
    have hne : ¬ ("__test__" = k) := fun h => hk h.symm
    simp [Cookie.areCookiesEnabled, Cookie.setCookie, Cookie.removeCookie,
      Cookie.mapGet_mapDelete, Cookie.mapGet_mapSet, hne]
  · simp [Cookie.areCookiesEnabled, Cookie.setCookie, Cookie.removeCookie,
      Cookie.getCookie, Cookie.mapGet_mapDelete]

/-- Witness for C10 on a store that already holds the sentinel and a utm
entry. -/
theorem c10_probe_frame_witness :
    Cookie.mapGet (Cookie.areCookiesEnabled probeStore).2 "utm_source"
      = Cookie.mapGet probeStore "utm_source"
    ∧ Cookie.getCookie (Cookie.areCookiesEnabled probeStore).2 "__test__" = none :=
  ⟨(c10_probe_frame probeStore).1 "utm_source" (by decide),
   (c10_probe_frame probeStore).2⟩
